import Mathlib

/-!
# Verification of the shogun linalg Core dispatch layer

Shallow embedding of `src/shogun/mathematics/linalg/internal/modules/Core.h`,
the backend-agnostic dispatch layer for dense linear-algebra primitives
(`add`, `subtract`, `scale`, `elementwise_product`, `elementwise_square`,
`matrix_product`, `convolve`).

The dispatch layer itself (template signatures, default arguments, the
`HAVE_LINALG_LIB` feature gate, and which implementation entry point each
public function instantiates) is embedded directly from `Core.h`.  The
implementation kernels live in headers that are not part of this tree
(`implementation/Add.h`, `implementation/Scale.h`, ...); where a property
depends on kernel behaviour, the kernel is modelled from the specification
and marked as such in its doc comment.
-/

namespace ShogunLinalg

/-- Backend tags selecting one compute engine among
reference / vectorized-CPU / accelerator (the spec's three-way split of
`Backend`; the enumeration itself is defined outside this tree). -/
inductive Backend where
  | native
  | eigen3
  | viennacl
deriving DecidableEq, Repr, Fintype

/-- Container types a call can be instantiated at (the `Matrix` template
parameter: a generic dense matrix or vector type). -/
inductive ContainerType where
  | denseMatrix
  | denseVector
deriving DecidableEq, Repr

/-- The public operation surface of `Core.h`: one value per dispatch
function, with the two `elementwise_square` signatures distinguished. -/
inductive Op where
  | add
  | subtractOp
  | scale
  | elementwiseProduct
  | elementwiseSquareReturning
  | elementwiseSquareInPlace
  | matrixProduct
  | convolveOp
deriving DecidableEq, Repr, Fintype

/-- The implementation entry-point families that `Core.h` instantiates:
`implementation::add`, `implementation::scale`, ... .  Note there is no
`subtract` family: `Core.h` never names one. -/
inductive ImplOp where
  | addImpl
  | scaleImpl
  | elementwiseProductImpl
  | elementwiseSquareImpl
  | matrixProductImpl
  | convolveImpl
deriving DecidableEq, Repr

/-- An implementation-module specialization key: the compile-time triple
`implementation::op<backend, Matrix>` that a dispatch function instantiates. -/
structure ImplKey where
  op : ImplOp
  backend : Backend
  container : ContainerType
deriving DecidableEq, Repr

/-! ## Instantiation keys of each dispatch function (from `Core.h`)

Each public function forwards to exactly one
`implementation::<family><backend, Matrix>::compute(...)`; the key below is
read off the corresponding line of `Core.h`. -/

/-- `add` instantiates `implementation::add<backend, Matrix>` (Core.h:61). -/
def addImplKey (b : Backend) (t : ContainerType) : ImplKey :=
  ⟨ImplOp.addImpl, b, t⟩

/-- `subtract` instantiates `implementation::add<backend, Matrix>`
(Core.h:87) — the same family as `add`, not a separate kernel. -/
def subtractImplKey (b : Backend) (t : ContainerType) : ImplKey :=
  ⟨ImplOp.addImpl, b, t⟩

/-- `scale` instantiates `implementation::scale<backend, Matrix>` (Core.h:94). -/
def scaleImplKey (b : Backend) (t : ContainerType) : ImplKey :=
  ⟨ImplOp.scaleImpl, b, t⟩

/-- The non-allocating `elementwise_square(m, result)` instantiates
`implementation::elementwise_square<backend, Matrix>` (Core.h:128): the key
mentions the backend and the type of `m` only; the `ResultMatrix` template
argument does not appear in it. -/
def elementwiseSquareInPlaceImplKey (b : Backend) (t : ContainerType)
    (_resultTy : ContainerType) : ImplKey :=
  ⟨ImplOp.elementwiseSquareImpl, b, t⟩

/-! ## The feature gate (`HAVE_LINALG_LIB`)

In `Core.h`, `add` (lines 57-62) is declared before `#ifdef HAVE_LINALG_LIB`
(line 64); `matrix_product`, `subtract`, `scale`, `elementwise_product`,
both `elementwise_square` signatures and `convolve` all sit inside that
block, which closes at line 153.  Availability of each public operation as
a function of the build flag is read off that structure. -/

/-- Which public operations are declared (available at build time) for a
given value of the `HAVE_LINALG_LIB` build flag, per the `#ifdef` structure
of `Core.h`: only `add` is outside the guard. -/
def availableAtBuild (haveLinalgLib : Bool) : Op → Bool
  | Op.add => true
  | _ => haveLinalgLib

/-! ## Backend resolution (the Backend Trait Resolver)

Every dispatch function in `Core.h` is declared as
`template <Backend backend=linalg_traits<Core>::backend, class Matrix>`:
the caller may supply the backend tag explicitly, and when omitted the
single build-time default `linalg_traits<Core>::backend` is substituted. -/

/-- Modelled from the spec: `linalg_traits<Core>::backend`, the build-time
default backend of the Core module.  `linalg_traits` is defined outside
this tree; per spec §4.1 it is one fixed tag per build, modelled here as an
unspecified fixed value (no theorem depends on which one it is). -/
def linalgTraitsCoreBackend : Backend :=
  Backend.native

/-- The default backend each dispatch function declares for its `backend`
template parameter: every line `template <Backend
backend=linalg_traits<Core>::backend, ...>` of `Core.h` names the same
trait (lines 57, 75, 83, 91, 98, 112, 125, 147). -/
def defaultBackendOf : Op → Backend
  | Op.add => linalgTraitsCoreBackend
  | Op.subtractOp => linalgTraitsCoreBackend
  | Op.scale => linalgTraitsCoreBackend
  | Op.elementwiseProduct => linalgTraitsCoreBackend
  | Op.elementwiseSquareReturning => linalgTraitsCoreBackend
  | Op.elementwiseSquareInPlace => linalgTraitsCoreBackend
  | Op.matrixProduct => linalgTraitsCoreBackend
  | Op.convolveOp => linalgTraitsCoreBackend

/-- The backend a call to `op` uses: the explicit tag when the caller
supplies one, the operation's declared default otherwise (C++ default
template argument substitution). -/
def callBackend (op : Op) : Option Backend → Backend
  | some b => b
  | none => defaultBackendOf op

/-! ## Specialization resolution

`Core.h` line 61 (and its analogues) instantiates
`implementation::add<backend, Matrix>::compute` at exactly the requested
key.  Whether that instantiation succeeds is decided by which
specializations the implementation headers define. -/

/-- Outcome of resolving a specialization key: a build-time rejection, or
the specialization at some key. -/
inductive Resolution where
  | rejected
  | resolved (k : ImplKey)
deriving DecidableEq, Repr

/-- Modelled from the spec: C++ template-specialization lookup for the
implementation modules (`implementation/*.h`, outside this tree).  The set
of registered specializations is abstracted as a predicate on keys; per
spec §4.1/§7 the compiler instantiates exactly the requested key when it is
registered and rejects the program at build time otherwise. -/
def resolveSpecialization (registered : ImplKey → Bool) (k : ImplKey) :
    Resolution :=
  if registered k then Resolution.resolved k else Resolution.rejected

/-! ## Default arguments of the dispatch functions (from `Core.h`)

Each table below records, per public operation, the default value a
parameter carries in its `Core.h` signature; `none` means the signature
declares no default, so the caller must supply the argument. -/

/-- Default of the `alpha` parameter per operation: `add` and `subtract`
declare `alpha=1.0` (lines 58, 85); `scale` declares `alpha` with no
default (line 92); the remaining operations have no `alpha` parameter. -/
def alphaDefault : Op → Option Int
  | Op.add => some 1
  | Op.subtractOp => some 1
  | Op.scale => none
  | _ => none

/-- Default of the `beta` parameter per operation: `add` and `subtract`
declare `beta=1.0` (lines 59, 85); no other operation has a `beta`
parameter. -/
def betaDefault : Op → Option Int
  | Op.add => some 1
  | Op.subtractOp => some 1
  | _ => none

/-- Default of `matrix_product`'s `overwrite` parameter (Core.h:77). -/
def matrixProductOverwriteDefault : Bool := true

/-- Default of `convolve`'s `overwrite` parameter (Core.h:149). -/
def convolveOverwriteDefault : Bool := true

/-- Defaults of `convolve`'s `stride_x` and `stride_y` (Core.h:149). -/
def convolveStrideDefault : Nat := 1

/-! ## The dense container model

Scalars are modelled as exact rationals (the C++ `Matrix::Scalar` is a
generic numeric type; Int gives exact `-beta` and exact `alpha·A + beta·B`).
A container is its two dimensions plus an entry function; entries outside
the declared bounds are irrelevant and comparisons are made on the declared
rectangle. -/

structure Mat where
  rows : Nat
  cols : Nat
  entry : Nat → Nat → Int

/-- Extensional equality of containers on their declared rectangles. -/
def Mat.EqOn (A B : Mat) : Prop :=
  A.rows = B.rows ∧ A.cols = B.cols ∧
    ∀ i, i < A.rows → ∀ j, j < A.cols → A.entry i j = B.entry i j

instance (A B : Mat) : Decidable (A.EqOn B) := by
  unfold Mat.EqOn
  infer_instance

/-- Build a container from a rectangular list of rows (absent entries are 0;
used only to write concrete examples). -/
def Mat.ofLists (l : List (List Int)) : Mat :=
  ⟨l.length, (l.headD []).length, fun i j => ((l.getD i []).getD j 0)⟩

/-! ## Kernel models

`Core.h` only forwards; the kernels it forwards to are in
`implementation/*.h`, outside this tree, so they are modelled from the
specification. -/

/-- Modelled from the spec: the `implementation::add` kernel
(`implementation/Add.h`, not under this tree).  Per spec §4.2 it writes
`C[i,j] = alpha·A[i,j] + beta·B[i,j]` for every coefficient of the
caller-supplied output container `C`. -/
def addCompute (A B C : Mat) (alpha beta : Int) : Mat :=
  ⟨C.rows, C.cols, fun i j => alpha * A.entry i j + beta * B.entry i j⟩

/-! ## Dispatch functions as forwarders

Each dispatch function is embedded as a forwarder over the `compute` entry
point it instantiates, mirroring the bodies in `Core.h` exactly. -/

/-- `add` (Core.h:57-62): forwards `(A, B, C, alpha, beta)` unchanged to the
instantiated `implementation::add<...>::compute`. -/
def add_dispatch (compute : Mat → Mat → Mat → Int → Int → Mat)
    (A B C : Mat) (alpha beta : Int) : Mat :=
  compute A B C alpha beta

/-- `subtract` (Core.h:82-88): forwards to `implementation::add<...>::compute`
with the second coefficient replaced by `-1*beta`. -/
def subtract_dispatch (compute : Mat → Mat → Mat → Int → Int → Mat)
    (A B C : Mat) (alpha beta : Int) : Mat :=
  compute A B C alpha (-1 * beta)

/-- The public `add` with the modelled kernel plugged in. -/
def add (A B C : Mat) (alpha beta : Int) : Mat :=
  add_dispatch addCompute A B C alpha beta

/-- The public `subtract` with the modelled kernel plugged in. -/
def subtract (A B C : Mat) (alpha beta : Int) : Mat :=
  subtract_dispatch addCompute A B C alpha beta

/-! ## The remaining kernel models -/

/-- Modelled from the spec: the `implementation::scale` kernel
(`implementation/Scale.h`, not under this tree).  Per spec §4.3 it writes
`B := alpha·A`. -/
def scaleCompute (A B : Mat) (alpha : Int) : Mat :=
  ⟨B.rows, B.cols, fun i j => alpha * A.entry i j⟩

/-- Modelled from the spec: the `implementation::elementwise_square`
kernel, allocating form (`implementation/ElementwiseSquare.h`, not under
this tree).  Per spec §4.5 it returns a newly constructed container with
`result[i,j] = m[i,j]^2` for all coefficients of `m`. -/
def elementwiseSquareAlloc (m : Mat) : Mat :=
  ⟨m.rows, m.cols, fun i j => m.entry i j ^ 2⟩

/-- Modelled from the spec: the `implementation::elementwise_square`
kernel, non-allocating form (`implementation/ElementwiseSquare.h`, not
under this tree).  Per spec §4.5 it writes `m[i,j]^2` into every
coefficient position of `m` inside the caller-supplied pre-allocated
`result`, which keeps its own shape. -/
def elementwiseSquareInto (m result : Mat) : Mat :=
  ⟨result.rows, result.cols, fun i j =>
    if i < m.rows ∧ j < m.cols then m.entry i j ^ 2 else result.entry i j⟩

/-- Transpose of a container. -/
def Mat.transposeM (A : Mat) : Mat :=
  ⟨A.cols, A.rows, fun i j => A.entry j i⟩

/-- `op(A)`: apply the transpose when the corresponding flag is set. -/
def matOp (t : Bool) (A : Mat) : Mat :=
  if t then A.transposeM else A

/-- Matrix product over the declared dimensions. -/
def matMulM (A B : Mat) : Mat :=
  ⟨A.rows, B.cols, fun i j =>
    ∑ l ∈ Finset.range A.cols, A.entry i l * B.entry l j⟩

/-- Entrywise sum, on the first operand's declared dimensions. -/
def matAddM (A B : Mat) : Mat :=
  ⟨A.rows, A.cols, fun i j => A.entry i j + B.entry i j⟩

/-- Modelled from the spec: the `implementation::matrix_product` kernel
(`implementation/MatrixProduct.h`, not under this tree).  Per spec §4.6 it
computes `op(A)·op(B)` with `op` the optional transpose; the result
replaces `C` when `overwrite` is true and is added into the existing
contents of `C` when it is false. -/
def matrixProductCompute (A B C : Mat)
    (transposeA transposeB overwrite : Bool) : Mat :=
  let P := matMulM (matOp transposeA A) (matOp transposeB B)
  if overwrite then P else matAddM C P

/-- Zero-padded entry lookup: coefficients of `X`, with every position
outside the declared rectangle reading as 0. -/
def padEntry (X : Mat) (i j : Int) : Int :=
  if 0 ≤ i ∧ i < (X.rows : Int) ∧ 0 ≤ j ∧ j < (X.cols : Int) then
    X.entry i.toNat j.toNat
  else 0

/-- Kernel coefficient as used by the convolution sum: reflected along both
axes for a true convolution, taken as-is when `flip` requests
cross-correlation. -/
def kernelAt (W : Mat) (flip : Bool) (u v : Nat) : Int :=
  if flip then W.entry u v
  else W.entry (W.rows - 1 - u) (W.cols - 1 - v)

/-- Modelled from the spec: the `implementation::convolve` kernel
(`implementation/Convolve.h`, not under this tree).  Per spec §4.7 and the
`Core.h` doc comment: 2D convolution (or cross-correlation when `flip`) of
image `X` with an odd-dimensioned kernel `W`, centred, with the borders of
`X` implicitly padded with zeros; the output grid subsamples by the
strides (ceiling division, so unit stride covers every input position);
`overwrite` selects replace-vs-accumulate into `Y`. -/
def convolveCompute (X W Y : Mat) (flip overwrite : Bool)
    (strideX strideY : Nat) : Mat :=
  let ry : Nat := W.rows / 2
  let rx : Nat := W.cols / 2
  let outRows : Nat := (X.rows + strideY - 1) / strideY
  let outCols : Nat := (X.cols + strideX - 1) / strideX
  ⟨outRows, outCols, fun i j =>
    (if overwrite then 0 else Y.entry i j) +
      ∑ u ∈ Finset.range W.rows, ∑ v ∈ Finset.range W.cols,
        kernelAt W flip u v *
          padEntry X ((i * strideY : Int) + u - ry) ((j * strideX : Int) + v - rx)⟩

/-! ## Concrete containers used in witnesses and concrete scenarios -/

/-- The spec's concrete first operand `[[1,2],[3,4]]`. -/
def exA : Mat := Mat.ofLists [[1, 2], [3, 4]]

/-- The spec's concrete second operand `[[5,6],[7,8]]`. -/
def exB : Mat := Mat.ofLists [[5, 6], [7, 8]]

/-- A zero-initialised 2×2 output container. -/
def exZero : Mat := Mat.ofLists [[0, 0], [0, 0]]

/-- A 2×2 output container holding ones (for accumulate scenarios). -/
def exOnes : Mat := Mat.ofLists [[1, 1], [1, 1]]

/-- A concrete 3×3 (odd-dimensioned) convolution kernel. -/
def exW : Mat := Mat.ofLists [[1, 0, 1], [0, 1, 0], [1, 0, 1]]

/-! ## The claims -/

/-- C1: for every pair of operands, caller-supplied output `C` and scalars
`alpha`, `beta`, `subtract(A,B,C,alpha,beta)` yields exactly the same
result as `add(A,B,C,alpha,-beta)`, and `subtract` is not a separately
implemented kernel: it instantiates the same implementation entry point as
`add` (the `implementation::add` family at the same backend and container
type) with the second coefficient negated. -/
theorem C1_subtract_is_add_with_negated_beta :
    (∀ b t, subtractImplKey b t = addImplKey b t) ∧
    (∀ compute A B C alpha beta,
      subtract_dispatch compute A B C alpha beta =
        add_dispatch compute A B C alpha (-beta)) ∧
    (∀ A B C alpha beta,
      subtract A B C alpha beta = add A B C alpha (-beta)) := by
  have key : ∀ beta : Int, -1 * beta = -beta := fun beta => by ring
  refine ⟨fun b t => rfl, fun compute A B C alpha beta => ?_, fun A B C alpha beta => ?_⟩
  · show compute A B C alpha (-1 * beta) = compute A B C alpha (-beta)
    rw [key]
  · show addCompute A B C alpha (-1 * beta) = addCompute A B C alpha (-beta)
    rw [key]

/-- C2 counterexample: with `HAVE_LINALG_LIB` absent, `subtract` is not
available — its declaration sits inside the `#ifdef HAVE_LINALG_LIB`
block of `Core.h` (lines 64–153) — refuting the claim that both `add` and
`subtract` remain available without the capability. -/
theorem C2_counterexample_subtract_gated :
    ¬ (availableAtBuild false Op.subtractOp = true) := by decide

/-- C2 amended: the build-time feature gate withholds every operation
except `add`: with `HAVE_LINALG_LIB` absent, an operation is available iff
it is `add` (so `subtract`, `scale`, `elementwise_product`, both
`elementwise_square` signatures, `matrix_product` and `convolve` are all
unavailable), and with the capability present every operation is
available. -/
theorem C2_feature_gate_availability :
    (∀ op, availableAtBuild false op = true ↔ op = Op.add) ∧
    (∀ op, availableAtBuild true op = true) := by decide

/-- C3: for every operation in the public surface, an explicitly supplied
backend tag is the one used, and when the caller omits the tag the backend
used is the single build-time default `linalg_traits<Core>::backend` — the
same for every operation, so all no-override calls within one build use
one backend. -/
theorem C3_backend_resolution :
    (∀ op b, callBackend op (some b) = b) ∧
    (∀ op, callBackend op none = linalgTraitsCoreBackend) ∧
    (∀ op op2, callBackend op none = callBackend op2 none) := by
  refine ⟨fun op b => rfl, fun op => ?_, fun op op2 => ?_⟩
  · cases op <;> rfl
  · cases op <;> cases op2 <;> rfl

/-- C4: for every set of registered implementation-module specializations
and every requested key, if the key is unregistered the dispatch is
rejected at build time (no computation is selected), and a successful
resolution only ever yields the requested key itself — never a fallback to
a different backend. -/
theorem C4_unregistered_key_rejected (registered : ImplKey → Bool)
    (k : ImplKey) :
    (registered k = false →
      resolveSpecialization registered k = Resolution.rejected) ∧
    (∀ k2, resolveSpecialization registered k = Resolution.resolved k2 →
      k2 = k) := by
  constructor
  · intro h
    simp [resolveSpecialization, h]
  · intro k2 h
    by_cases hr : registered k = true
    · simp [resolveSpecialization, hr] at h
      exact h.symm
    · simp [resolveSpecialization, hr] at h

/-- C4 witness: with no specialization registered, the `add` key at the
native backend is rejected; with everything registered, resolution at the
eigen3 key yields exactly that key. -/
theorem C4_unregistered_key_rejected_witness :
    resolveSpecialization (fun _ => false)
        ⟨ImplOp.addImpl, Backend.native, ContainerType.denseMatrix⟩ =
      Resolution.rejected ∧
    (⟨ImplOp.addImpl, Backend.eigen3, ContainerType.denseMatrix⟩ : ImplKey) =
      ⟨ImplOp.addImpl, Backend.eigen3, ContainerType.denseMatrix⟩ :=
  ⟨(C4_unregistered_key_rejected (fun _ => false)
      ⟨ImplOp.addImpl, Backend.native, ContainerType.denseMatrix⟩).1 rfl,
   (C4_unregistered_key_rejected (fun _ => true)
      ⟨ImplOp.addImpl, Backend.eigen3, ContainerType.denseMatrix⟩).2
      ⟨ImplOp.addImpl, Backend.eigen3, ContainerType.denseMatrix⟩ (by decide)⟩

/-- C5: `add(A,B,C,alpha,beta)` writes `alpha·A[i,j] + beta·B[i,j]` into
every coefficient of `C`; in particular on `A=[[1,2],[3,4]]`,
`B=[[5,6],[7,8]]` with `alpha=beta=1` the result is `[[6,8],[10,12]]`. -/
theorem C5_add_entrywise :
    (∀ A B C alpha beta i j,
      (add A B C alpha beta).entry i j =
        alpha * A.entry i j + beta * B.entry i j) ∧
    (add exA exB exZero 1 1).EqOn (Mat.ofLists [[6, 8], [10, 12]]) :=
  ⟨fun A B C alpha beta i j => rfl, by decide⟩

/-- C6 counterexample: `scale`'s `alpha` parameter carries no default in
its `Core.h` signature (line 92: `typename Matrix::Scalar alpha`), so it
cannot be omitted — refuting the claim that all of `add`, `subtract` and
`scale` default an omitted coefficient to 1.0. -/
theorem C6_counterexample_scale_alpha_mandatory :
    alphaDefault Op.scale = none ∧
    ¬ (alphaDefault Op.scale = some 1) := by decide

/-- C6 amended: for `add` and `subtract` the coefficients `alpha` and
`beta` may be omitted and default to 1.0; `scale`'s `alpha` has no default
and must be supplied by the caller. -/
theorem C6_coefficient_defaults :
    alphaDefault Op.add = some 1 ∧ betaDefault Op.add = some 1 ∧
    alphaDefault Op.subtractOp = some 1 ∧
    betaDefault Op.subtractOp = some 1 ∧
    alphaDefault Op.scale = none := by decide

/-- C7: with `overwrite=false`, `matrix_product` accumulates — every
coefficient of the result is the prior coefficient of `C` plus the
corresponding coefficient of `op(A)·op(B)` — while with `overwrite=true`
(which is the declared default) `C` is replaced by `op(A)·op(B)`;
concretely, on `A=[[1,2],[3,4]]`, `B=[[5,6],[7,8]]`, `C=[[1,1],[1,1]]` the
accumulate path yields `[[20,23],[44,51]]` and the overwrite path
`[[19,22],[43,50]]`. -/
theorem C7_matrix_product_accumulate :
    (∀ A B C tA tB i j,
      (matrixProductCompute A B C tA tB false).entry i j =
        C.entry i j + (matMulM (matOp tA A) (matOp tB B)).entry i j) ∧
    (∀ A B C tA tB,
      matrixProductCompute A B C tA tB true =
        matMulM (matOp tA A) (matOp tB B)) ∧
    matrixProductOverwriteDefault = true ∧
    (matrixProductCompute exA exB exOnes false false false).EqOn
      (Mat.ofLists [[20, 23], [44, 51]]) ∧
    (matrixProductCompute exA exB exOnes false false true).EqOn
      (Mat.ofLists [[19, 22], [43, 50]]) :=
  ⟨fun A B C tA tB i j => rfl, fun A B C tA tB => rfl, rfl,
   by decide, by decide⟩

/-- C8: both `elementwise_square` signatures compute
`result[i,j] = m[i,j]^2` for all coefficients, and on a caller-supplied
result container of `m`'s shape the non-allocating form agrees exactly
with the allocating form. -/
theorem C8_elementwise_square_agree (m result : Mat)
    (hr : result.rows = m.rows) (hc : result.cols = m.cols) :
    (∀ i j, (elementwiseSquareAlloc m).entry i j = m.entry i j ^ 2) ∧
    Mat.EqOn (elementwiseSquareInto m result) (elementwiseSquareAlloc m) := by
  refine ⟨fun i j => rfl, hr, hc, fun i hi j hj => ?_⟩
  have hi2 : i < m.rows := by
    simpa [elementwiseSquareInto, hr] using hi
  have hj2 : j < m.cols := by
    simpa [elementwiseSquareInto, hc] using hj
  simp [elementwiseSquareInto, elementwiseSquareAlloc, hi2, hj2]

/-- C8 witness: on `m=[[1,2],[3,4]]` with a pre-allocated 2×2 result, the
two forms agree (both give `[[1,4],[9,16]]`). -/
theorem C8_elementwise_square_agree_witness :
    Mat.EqOn (elementwiseSquareInto exA exZero)
      (elementwiseSquareAlloc exA) :=
  (C8_elementwise_square_agree exA exZero rfl rfl).2

/-- C9: for every image `X` and every kernel `W` whose two dimensions are
each odd, `convolve` at unit strides produces an output of exactly `X`'s
shape (the boundary handled by zero padding, never cropping). -/
theorem C9_convolve_unit_stride_shape (X W Y : Mat) (flip overwrite : Bool)
    (hrow : Odd W.rows) (hcol : Odd W.cols) :
    (convolveCompute X W Y flip overwrite 1 1).rows = X.rows ∧
    (convolveCompute X W Y flip overwrite 1 1).cols = X.cols := by
  constructor <;> simp [convolveCompute]

/-- C9 witness: the 3×3 kernel has odd dimensions, and convolving the 2×2
image `[[1,2],[3,4]]` with it at unit strides yields a 2×2 output. -/
theorem C9_convolve_unit_stride_shape_witness :
    Odd exW.rows ∧ Odd exW.cols ∧
    ((convolveCompute exA exW exZero false true 1 1).rows = 2 ∧
     (convolveCompute exA exW exZero false true 1 1).cols = 2) :=
  ⟨by decide, by decide,
   C9_convolve_unit_stride_shape exA exW exZero false true
     (by decide) (by decide)⟩

/-- C10: the specialization key instantiated by the non-allocating
`elementwise_square(m, result)` is determined by the backend tag and the
type of `m` alone: every choice of result-container type yields the same
key, namely `implementation::elementwise_square<backend, Matrix>`. -/
theorem C10_square_key_ignores_result_type :
    ∀ b t rt rt2,
      elementwiseSquareInPlaceImplKey b t rt =
        elementwiseSquareInPlaceImplKey b t rt2 ∧
      elementwiseSquareInPlaceImplKey b t rt =
        ⟨ImplOp.elementwiseSquareImpl, b, t⟩ :=
  fun b t rt rt2 => ⟨rfl, rfl⟩

end ShogunLinalg
